import Mathlib

/-!
Verification of the zm framed-message protocol layer: the message codec
in zm/message.py and the connection handling in zm/server.py.

Bytes are modelled as lists of naturals below 256. Python str values that
flow through the decode pipeline are modelled as lists of characters.
JSON values are modelled by the mutually inductive type `Json` below.
The Python standard library routines that the repository calls
(bytes.decode, str.encode, json.loads, json.dumps) are not part of the
repository; they are modelled here by executable functions covering the
fragment of their behaviour that this wire format exercises.
-/

mutual

/-- The decoded JSON values manipulated by the codec, given as a mutual
inductive family so that all recursion over it is structural. -/
inductive Json where
  | null : Json
  | bool (b : Bool) : Json
  | num (n : Int) : Json
  | str (s : String) : Json
  | arr (elems : JsonList) : Json
  | obj (fields : JsonFields) : Json

inductive JsonList where
  | nil : JsonList
  | cons (hd : Json) (tl : JsonList) : JsonList

inductive JsonFields where
  | nil : JsonFields
  | cons (key : String) (val : Json) (tl : JsonFields) : JsonFields

end

/-- Build a `JsonFields` from a list of key/value pairs. -/
def JsonFields.ofList : List (String × Json) → JsonFields
  | [] => .nil
  | (k, v) :: rest => .cons k v (JsonFields.ofList rest)

/-- Build a `JsonList` from a list of values. -/
def JsonList.ofList : List Json → JsonList
  | [] => .nil
  | v :: rest => .cons v (JsonList.ofList rest)

/-- Python `dict.get` on a JSON object decoded by `json.loads`: when a key
occurs several times, later occurrences overwrite earlier ones, so the
last binding wins; an absent key gives `none` (Python `None`). -/
def pyDictGet : JsonFields → String → Option Json
  | .nil, _ => none
  | .cons k v tl, key =>
    match pyDictGet tl key with
    | some w => some w
    | none => if k == key then some v else none

/-- Python `bytes.find` for a single byte: index of its first occurrence,
`none` standing for Python's -1. -/
def pyFindByte (b : Nat) : List Nat → Option Nat
  | [] => none
  | x :: xs => if x = b then some 0 else (pyFindByte b xs).map (· + 1)

theorem pyFindByte_eq_none_iff (b : Nat) (l : List Nat) :
    pyFindByte b l = none ↔ b ∉ l := by
  induction l with
  | nil => simp [pyFindByte]
  | cons x xs ih =>
    by_cases hx : x = b
    · simp [pyFindByte, hx]
    · simp only [pyFindByte, if_neg hx, Option.map_eq_none', ih, List.mem_cons]
      constructor
      · intro h hm
        rcases hm with hm | hm
        · exact hx hm.symm
        · exact h hm
      · intro h hm
        exact h (Or.inr hm)

/-- True for a UTF-8 continuation byte (10xxxxxx). -/
def utf8Cont (b : Nat) : Bool := 0x80 ≤ b && b < 0xC0

/-- Models Python `bytes.decode("utf-8")` (strict): standard UTF-8 decoding
rejecting truncated sequences, stray continuation bytes, overlong
encodings, surrogates and code points beyond U+10FFFF. Returns the decoded
text as a list of characters, `none` on a `UnicodeDecodeError`. -/
def pyUtf8DecodeChars : List Nat → Option (List Char)
  | [] => some []
  | b :: rest =>
    if b < 0x80 then
      (pyUtf8DecodeChars rest).map (Char.ofNat b :: ·)
    else if b < 0xC2 then none
    else if b < 0xE0 then
      match rest with
      | b2 :: r2 =>
        if utf8Cont b2 then
          (pyUtf8DecodeChars r2).map (Char.ofNat ((b - 0xC0) * 0x40 + (b2 - 0x80)) :: ·)
        else none
      | [] => none
    else if b < 0xF0 then
      match rest with
      | b2 :: b3 :: r3 =>
        if utf8Cont b2 && utf8Cont b3 then
          let cp := (b - 0xE0) * 0x1000 + (b2 - 0x80) * 0x40 + (b3 - 0x80)
          if cp < 0x800 then none
          else if 0xD800 ≤ cp ∧ cp < 0xE000 then none
          else (pyUtf8DecodeChars r3).map (Char.ofNat cp :: ·)
        else none
      | _ => none
    else if b < 0xF5 then
      match rest with
      | b2 :: b3 :: b4 :: r4 =>
        if utf8Cont b2 && utf8Cont b3 && utf8Cont b4 then
          let cp := (b - 0xF0) * 0x40000 + (b2 - 0x80) * 0x1000 +
                    (b3 - 0x80) * 0x40 + (b4 - 0x80)
          if cp < 0x10000 ∨ 0x110000 ≤ cp then none
          else (pyUtf8DecodeChars r4).map (Char.ofNat cp :: ·)
        else none
      | _ => none
    else none

/-- UTF-8 encoding of one character, 1 to 4 bytes. -/
def charUtf8 (c : Char) : List Nat :=
  let n := c.toNat
  if n < 0x80 then [n]
  else if n < 0x800 then [0xC0 + n / 0x40, 0x80 + n % 0x40]
  else if n < 0x10000 then
    [0xE0 + n / 0x1000, 0x80 + (n / 0x40) % 0x40, 0x80 + n % 0x40]
  else
    [0xF0 + n / 0x40000, 0x80 + (n / 0x1000) % 0x40,
     0x80 + (n / 0x40) % 0x40, 0x80 + n % 0x40]

/-- Models Python `str.encode("utf-8")`: UTF-8 bytes of a string. -/
def strEncodeUtf8 (s : String) : List Nat :=
  (s.data.map charUtf8).flatten

/-- The opening brace character, written via its code point. -/
def lbrace : Char := Char.ofNat 0x7b

/-- The closing brace character, written via its code point. -/
def rbrace : Char := Char.ofNat 0x7d

/-- Skip the whitespace characters accepted by the JSON grammar. -/
def skipWs : List Char → List Char
  | [] => []
  | c :: cs =>
    if c = ' ' ∨ c = '\t' ∨ c = '\n' ∨ c = '\r' then skipWs cs else c :: cs

/-- Parse the body of a JSON string after the opening quote, handling the
common escape sequences; returns the string contents and the remaining
input after the closing quote. -/
def parseStringBody : List Char → Option (List Char × List Char)
  | [] => none
  | c :: cs =>
    if c = '"' then some ([], cs)
    else if c = '\\' then
      match cs with
      | e :: cs2 =>
        let esc : Option Char :=
          if e = '"' then some '"'
          else if e = '\\' then some '\\'
          else if e = '/' then some '/'
          else if e = 'n' then some '\n'
          else if e = 't' then some '\t'
          else if e = 'r' then some '\r'
          else if e = 'b' then some (Char.ofNat 8)
          else if e = 'f' then some (Char.ofNat 12)
          else none
        match esc with
        | some ch => (parseStringBody cs2).map (fun p => (ch :: p.1, p.2))
        | none => none
      | [] => none
    else if c.toNat < 0x20 then none
    else (parseStringBody cs).map (fun p => (c :: p.1, p.2))

/-- Longest prefix of decimal digits together with the remaining input. -/
def takeDigits : List Char → List Char × List Char
  | [] => ([], [])
  | c :: cs =>
    if c.isDigit then
      let p := takeDigits cs
      (c :: p.1, p.2)
    else ([], c :: cs)

/-- Numeric value of a list of decimal digits. -/
def digitsToNat (ds : List Char) : Nat :=
  ds.foldl (fun acc c => acc * 10 + (c.toNat - 48)) 0

/-- Parse a JSON integer literal (the integer fragment of JSON numbers;
this wire format never carries fractional or exponent forms, which the
model rejects rather than parses). -/
def parseNumber (cs : List Char) : Option (Json × List Char) :=
  let sign : Bool × List Char :=
    match cs with
    | '-' :: r => (true, r)
    | _ => (false, cs)
  match takeDigits sign.2 with
  | ([], _) => none
  | (ds, rest) =>
    if 1 < ds.length ∧ ds.headD '0' = '0' then none
    else
      let keep : Bool :=
        match rest with
        | c :: _ => ¬ (c = '.' ∨ c = 'e' ∨ c = 'E')
        | [] => true
      if keep then
        let n : Int := Int.ofNat (digitsToNat ds)
        some (Json.num (if sign.1 then -n else n), rest)
      else none

mutual

/-- Recursive-descent parse of one JSON value, fuelled to make the
recursion structural. -/
def parseValue : Nat → List Char → Option (Json × List Char)
  | 0, _ => none
  | fuel + 1, cs =>
    match skipWs cs with
    | [] => none
    | c :: cs1 =>
      if c = '"' then
        (parseStringBody cs1).map (fun p => (Json.str p.1.asString, p.2))
      else if c = lbrace then
        match skipWs cs1 with
        | c2 :: r2 =>
          if c2 = rbrace then some (Json.obj .nil, r2)
          else (parseMembers fuel (c2 :: r2)).map (fun p => (Json.obj p.1, p.2))
        | [] => none
      else if c = '[' then
        match skipWs cs1 with
        | c2 :: r2 =>
          if c2 = ']' then some (Json.arr .nil, r2)
          else (parseElems fuel (c2 :: r2)).map (fun p => (Json.arr p.1, p.2))
        | [] => none
      else if c = 't' then
        match cs1 with
        | 'r' :: 'u' :: 'e' :: r => some (Json.bool true, r)
        | _ => none
      else if c = 'f' then
        match cs1 with
        | 'a' :: 'l' :: 's' :: 'e' :: r => some (Json.bool false, r)
        | _ => none
      else if c = 'n' then
        match cs1 with
        | 'u' :: 'l' :: 'l' :: r => some (Json.null, r)
        | _ => none
      else if c = '-' ∨ c.isDigit then parseNumber (c :: cs1)
      else none

/-- Parse the members of a non-empty JSON object, starting at the first
key and consuming the closing brace. -/
def parseMembers : Nat → List Char → Option (JsonFields × List Char)
  | 0, _ => none
  | fuel + 1, cs =>
    match skipWs cs with
    | c :: cs1 =>
      if c = '"' then
        match parseStringBody cs1 with
        | some (k, r1) =>
          match skipWs r1 with
          | ':' :: r2 =>
            match parseValue fuel r2 with
            | some (v, r3) =>
              match skipWs r3 with
              | c2 :: r4 =>
                if c2 = ',' then
                  (parseMembers fuel r4).map
                    (fun p => (JsonFields.cons k.asString v p.1, p.2))
                else if c2 = rbrace then
                  some (JsonFields.cons k.asString v .nil, r4)
                else none
              | [] => none
            | none => none
          | _ => none
        | none => none
      else none
    | [] => none

/-- Parse the elements of a non-empty JSON array, consuming the closing
bracket. -/
def parseElems : Nat → List Char → Option (JsonList × List Char)
  | 0, _ => none
  | fuel + 1, cs =>
    match parseValue fuel cs with
    | some (v, r1) =>
      match skipWs r1 with
      | ',' :: r2 => (parseElems fuel r2).map (fun p => (JsonList.cons v p.1, p.2))
      | ']' :: r2 => some (JsonList.cons v .nil, r2)
      | _ => none
    | none => none

end

/-- Models Python `json.loads` on the JSON fragment this wire format
exercises (objects, arrays, strings with common escapes, integers,
`true`, `false`, `null`): parses one value and requires only whitespace
to follow, giving `none` where `json.loads` raises `ValueError`. -/
def pyJsonLoads (cs : List Char) : Option Json :=
  match parseValue (cs.length + 1) cs with
  | some (j, rest) => if (skipWs rest).isEmpty then some j else none
  | none => none

/-- JSON escape of one character as performed by `json.dumps`. -/
def jsonEscapeChar (c : Char) : List Char :=
  if c = '"' then ['\\', '"']
  else if c = '\\' then ['\\', '\\']
  else if c = '\n' then ['\\', 'n']
  else if c = '\t' then ['\\', 't']
  else if c = '\r' then ['\\', 'r']
  else [c]

/-- A JSON string literal: quoted and escaped. -/
def jsonQuote (s : String) : String :=
  ('"' :: (s.data.map jsonEscapeChar).flatten ++ ['"']).asString

mutual

/-- Models Python `json.dumps` with its default separators: a comma and a
space between items, a colon and a space after keys. -/
def Json.dumps : Json → String
  | .null => "null"
  | .bool true => "true"
  | .bool false => "false"
  | .num n => toString n
  | .str s => jsonQuote s
  | .arr xs => "[" ++ JsonList.dumpsElems xs ++ "]"
  | .obj fs => "\x7b" ++ JsonFields.dumpsMembers fs ++ "\x7d"

/-- Serialize array elements, comma-and-space separated. -/
def JsonList.dumpsElems : JsonList → String
  | .nil => ""
  | .cons v JsonList.nil => Json.dumps v
  | .cons v (JsonList.cons w tl) =>
    Json.dumps v ++ ", " ++ JsonList.dumpsElems (JsonList.cons w tl)

/-- Serialize object members, comma-and-space separated, with a colon and
a space after each key. -/
def JsonFields.dumpsMembers : JsonFields → String
  | .nil => ""
  | .cons k v JsonFields.nil => jsonQuote k ++ ": " ++ Json.dumps v
  | .cons k v (JsonFields.cons k2 v2 tl) =>
    jsonQuote k ++ ": " ++ Json.dumps v ++ ", " ++
      JsonFields.dumpsMembers (JsonFields.cons k2 v2 tl)

end

/-- Python exceptions that escape the repository's own code paths. -/
inductive PyExc where
  | keyError
  | attributeError
  | typeError
  | handlerExc (msg : String)
deriving DecidableEq

/-- A registered message kind: its wire tag (`type_`), its schema's
`to_python` validation (which either normalizes the entity or reports an
`Invalid` message) and its schema's `from_python` conversion. -/
structure MessageKind where
  tag : String
  toPython : Json → Except String Json
  fromPython : Json → Json

/-- Python truthiness of a decoded JSON value: `None`, `False`, zero, the
empty string, the empty list and the empty dict are falsy. -/
def jsonFalsy : Json → Bool
  | .null => true
  | .bool b => !b
  | .num n => n == 0
  | .str s => s == ""
  | .arr .nil => true
  | .obj .nil => true
  | _ => false

/-- Models the external formencode library's `validators.NotEmpty`:
`to_python` rejects an empty value with the `Invalid` message "Please
enter a value" and otherwise returns the value unchanged. -/
def notEmptyToPython (j : Json) : Except String Json :=
  if jsonFalsy j then .error "Please enter a value" else .ok j

/-- The `ErrorMessage` kind from zm/message.py: `type_` is "error", its
schema is `formencode.validators.NotEmpty()`; `from_python` returns the
value unchanged (formencode validators accept Python values as given). -/
def errorKind : MessageKind :=
  { tag := "error", toPython := notEmptyToPython, fromPython := fun j => j }

/-- The process-wide registry `MessageMeta.types` after module
initialization: the only `Message` subclass defined in the repository is
`ErrorMessage`. -/
def MessageMeta.types : List (String × MessageKind) := [("error", errorKind)]

/-- A validated in-memory message: the tag of its kind and its entity. -/
structure Message where
  tag : String
  entity : Json

/-- The distinct reasons for which `Message.decode` raises `MessageError`. -/
inductive MsgErrReason where
  | unicode
  | json
  | notObject
  | unknownType
deriving DecidableEq

/-- How `Message.decode` can fail: a raised `MessageError`, a `TypeError`
escaping the registry subscript when the `type` value is unhashable, or a
formencode `Invalid` propagating out of the schema's `to_python`. -/
inductive DecodeFailure where
  | messageError (r : MsgErrReason)
  | typeError
  | invalid (e : String)
deriving DecidableEq

/-- The registry subscript `MessageMeta.types[message_type]` wrapped in
`except KeyError`: a string key is looked up, a missing key or a
non-string hashable key (including the `None` of an absent `type` field)
becomes `MessageError`, and an unhashable key (list or dict) raises
`TypeError`, which the `except KeyError` clause does not catch. -/
def lookupMessageType (types : List (String × MessageKind)) :
    Option Json → Except DecodeFailure MessageKind
  | some (.str s) =>
    match List.lookup s types with
    | some k => .ok k
    | none => .error (.messageError .unknownType)
  | some (.arr _) => .error .typeError
  | some (.obj _) => .error .typeError
  | _ => .error (.messageError .unknownType)

/-- `Message.decode` from zm/message.py, parametric in the external UTF-8
decoder and JSON reader it calls: decode the bytes as UTF-8 (failures
reraised as `MessageError`), parse JSON (failures reraised as
`MessageError`), require a top-level object, look the `type` field up in
the registry, and run the kind's `to_python` on the `entity` field, whose
`Invalid` failures propagate as themselves. -/
def decodeWith (u8 : List Nat → Option (List Char)) (jl : List Char → Option Json)
    (types : List (String × MessageKind)) (raw : List Nat) :
    Except DecodeFailure Message :=
  match u8 raw with
  | none => .error (.messageError .unicode)
  | some chars =>
    match jl chars with
    | none => .error (.messageError .json)
    | some j =>
      match j with
      | .obj fields =>
        match lookupMessageType types (pyDictGet fields "type") with
        | .error e => .error e
        | .ok kind =>
          match kind.toPython ((pyDictGet fields "entity").getD Json.null) with
          | .error e => .error (.invalid e)
          | .ok v => .ok ⟨kind.tag, v⟩
      | _ => .error (.messageError .notObject)

/-- `Message.decode` instantiated with the stdlib models and the actual
registry. -/
def Message.decode (raw : List Nat) : Except DecodeFailure Message :=
  decodeWith pyUtf8DecodeChars pyJsonLoads MessageMeta.types raw

/-- Python `bytes.__add__` applied to a `str` right operand: bytes and
str never concatenate, so this unconditionally raises `TypeError`. -/
def bytesPlusStr (_bytes : List Nat) (_tail : String) : Except PyExc (List Nat) :=
  .error .typeError

/-- `Message.encode` from zm/message.py: `json.dumps` of the envelope
(`type` then `entity`, the entity passed through the schema's
`from_python`), encoded as UTF-8, then concatenated with the str value
of a single NUL character. -/
def Message.encode (kind : MessageKind) (entity : Json) : Except PyExc (List Nat) :=
  bytesPlusStr
    (strEncodeUtf8 (Json.dumps (Json.obj (JsonFields.cons "type" (Json.str kind.tag)
      (JsonFields.cons "entity" (kind.fromPython entity) JsonFields.nil)))))
    "\x00"

/-- `Message.decode_from_buffer` from zm/message.py, slicing view:
repeatedly find the terminator in the remaining buffered bytes, consume
up to and including it, and hand the slice without its terminator to
`Message.decode`; stop when no terminator remains, leaving the residue
unread. Returns the successive slices, fuelled by the buffer length to
keep the recursion structural. -/
def decodeFromBufferSlices : Nat → List Nat → List (List Nat)
  | 0, _ => []
  | fuel + 1, buf =>
    match pyFindByte 0 buf with
    | none => []
    | some i => buf.take i :: decodeFromBufferSlices fuel (buf.drop (i + 1))

/-- The slices `Message.decode_from_buffer` extracts from a buffer. -/
def Message.decode_from_buffer (buf : List Nat) : List (List Nat) :=
  decodeFromBufferSlices buf.length buf

/-- A message-type handler registered on the server: invoked with the
entity, it either returns or raises. -/
abbrev Handler : Type := Json → Except String Unit

/-- The server instance's `type_handlers` dispatch table. -/
abbrev Handlers : Type := List (String × Handler)

/-- What `ZordzmanHandler._process_message` does with one decoded JSON
message. -/
inductive ProcResult where
  | loggedNotDict
  | loggedNoEntity
  | dispatched
  | raised (e : PyExc)
deriving DecidableEq

/-- `ZordzmanHandler._process_message` from zm/server.py with Python
semantics kept line by line: the guard written with `and` evaluates the
subscript of the missing `type` key and raises `KeyError`; the missing
`entity` field is logged and dropped; the no-handler warning formats the
dict with an attribute access and raises `AttributeError` (for any
hashable `type` value absent from the table, string or not), while an
unhashable `type` value already raises `TypeError` in the membership
test; otherwise the registered handler is called on the `entity` value
with no surrounding try block, so a handler exception propagates. -/
def processMessage (handlers : Handlers) (message : Json) : ProcResult :=
  match message with
  | .obj fields =>
    match pyDictGet fields "type" with
    | none => .raised .keyError
    | some tv =>
      match pyDictGet fields "entity" with
      | none => .loggedNoEntity
      | some ent =>
        match tv with
        | .str s =>
          match List.lookup s handlers with
          | none => .raised .attributeError
          | some h =>
            match h ent with
            | .ok _ => .dispatched
            | .error e => .raised (.handlerExc e)
        | .arr _ => .raised .typeError
        | .obj _ => .raised .typeError
        | _ => .raised .attributeError
  | _ => .loggedNotDict

/-- Why `ZordzmanHandler._read_json` stopped reading. -/
inductive ReadStop where
  | clientClosed
  | utf8Error
  | jsonError
  | exn (e : PyExc)
deriving DecidableEq

/-- `ZordzmanHandler._read_json` from zm/server.py: one `recv` per loop
iteration (the chunk list models successive `recv` results, its end and
any empty chunk model `recv` returning empty bytes on a closed
connection); the received chunk is appended to the buffer, a single
`find` locates the first terminator, the slice before it is decoded as
UTF-8 then JSON (failures stop the loop) and handed to
`_process_message`; faithful to the source, the buffer is trimmed to
`buffer[message_end:]`, which retains the terminator byte. Returns the
frame slices handed to the decode pipeline and how the loop stopped. -/
def readJsonLoop (handlers : Handlers) :
    List Nat → List (List Nat) → List (List Nat) × ReadStop
  | _, [] => ([], .clientClosed)
  | buffer, chunk :: rest =>
    if chunk.isEmpty then ([], .clientClosed)
    else
      let buf := buffer ++ chunk
      match pyFindByte 0 buf with
      | none => readJsonLoop handlers buf rest
      | some i =>
        let msg := buf.take i
        let buf2 := buf.drop i
        match pyUtf8DecodeChars msg with
        | none => ([msg], .utf8Error)
        | some chars =>
          match pyJsonLoads chars with
          | none => ([msg], .jsonError)
          | some j =>
            match processMessage handlers j with
            | .raised e => ([msg], .exn e)
            | _ =>
              let r := readJsonLoop handlers buf2 rest
              (msg :: r.1, r.2)

/-- The 3-byte magic constant of the protocol. -/
def MAGIC_NUMBER : List Nat := [0xCA, 0xC3, 0x55]

/-- The supported protocol version byte. -/
def PROTOCOL_VERSION : Nat := 0

/-- Why the preamble check terminated a connection. -/
inductive PreambleFail where
  | incompletePreamble
  | badMagic
  | versionMismatch
deriving DecidableEq

/-- Outcome of one connection: terminated during the preamble check, or
opened with the frames the read loop extracted and its stop reason. -/
inductive ConnResult where
  | preambleFail (r : PreambleFail)
  | opened (frames : List (List Nat)) (stop : ReadStop)

/-- `ZordzmanHandler.handler` from zm/server.py: `preamble` is the result
of the initial `recv(4)`; fewer than 4 bytes, a wrong 3-byte prefix or a
wrong version byte each terminate the connection, otherwise control
passes to `_read_json` with a fresh empty buffer. -/
def ZordzmanHandler.handler (handlers : Handlers) (preamble : List Nat)
    (chunks : List (List Nat)) : ConnResult :=
  if preamble.length < 4 then .preambleFail .incompletePreamble
  else if preamble.take 3 ≠ MAGIC_NUMBER then .preambleFail .badMagic
  else if preamble.getD 3 0 ≠ PROTOCOL_VERSION then .preambleFail .versionMismatch
  else
    let r := readJsonLoop handlers [] chunks
    .opened r.1 r.2

/-- `ZordzmanHandler.send` from zm/server.py: `json.dumps` of the
envelope with keys `type` and `message`, encoded as UTF-8, concatenated
with the bytes value containing the single terminator byte. -/
def ZordzmanHandler.send (type_ : String) (message : Json) : List Nat :=
  strEncodeUtf8 (Json.dumps (Json.obj (JsonFields.cons "type" (Json.str type_)
    (JsonFields.cons "message" message JsonFields.nil)))) ++ [0x00]

/-- The raw text of the frame carrying type "error" and entity "k"
(ASCII bytes of the envelope as a JSON object). -/
def errorKFrame : List Nat :=
  [123, 34, 116, 121, 112, 101, 34, 58, 32, 34, 101, 114, 114, 111, 114, 34,
   44, 32, 34, 101, 110, 116, 105, 116, 121, 34, 58, 32, 34, 107, 34, 125]

/-- The raw text of the frame carrying type "error" and an empty-string
entity, which the NotEmpty validator rejects. -/
def errorEmptyFrame : List Nat :=
  [123, 34, 116, 121, 112, 101, 34, 58, 32, 34, 101, 114, 114, 111, 114, 34,
   44, 32, 34, 101, 110, 116, 105, 116, 121, 34, 58, 32, 34, 34, 125]

/-- The raw text of a well-formed frame of type "unknown" with an empty
object entity. -/
def unknownTypeFrame : List Nat :=
  [123, 34, 116, 121, 112, 101, 34, 58, 32, 34, 117, 110, 107, 110, 111, 119,
   110, 34, 44, 32, 34, 101, 110, 116, 105, 116, 121, 34, 58, 32, 123, 125, 125]

/-- The raw text of a well-formed frame of type "boom" with entity 1. -/
def boomFrame : List Nat :=
  [123, 34, 116, 121, 112, 101, 34, 58, 32, 34, 98, 111, 111, 109, 34, 44,
   32, 34, 101, 110, 116, 105, 116, 121, 34, 58, 32, 49, 125]

/-- The raw text of a frame whose object has an entity field but no type
field. -/
def noTypeFrame : List Nat :=
  [123, 34, 101, 110, 116, 105, 116, 121, 34, 58, 32, 123, 125, 125]

/-- The raw text of a well-formed frame of type "x" with entity 1. -/
def xFrame : List Nat :=
  [123, 34, 116, 121, 112, 101, 34, 58, 32, 34, 120, 34, 44, 32, 34, 101,
   110, 116, 105, 116, 121, 34, 58, 32, 49, 125]

/-- A handler that accepts its entity and returns. -/
def okHandler : Handler := fun _ => .ok ()

/-- A handler that raises on every entity. -/
def boomHandler : Handler := fun _ => .error "boom"

/-- True when processing a message ended in the registered handler being
invoked (whether the handler returned or itself raised). -/
def reachesHandler : ProcResult → Bool
  | .dispatched => true
  | .raised (.handlerExc _) => true
  | _ => false

/-- True when a decode result is a raised `MessageError`. -/
def decodeRaisedMessageError : Except DecodeFailure Message → Bool
  | .error (.messageError _) => true
  | _ => false

/-- True when a decode result is a validator `Invalid` propagating out of
decode. -/
def decodeRaisedInvalid : Except DecodeFailure Message → Bool
  | .error (.invalid _) => true
  | _ => false

/-- True when a decoded value is a JSON object (a Python dict). -/
def jsonIsObj : Json → Bool
  | .obj _ => true
  | _ => false

/-- The `type`-field situations that the registry subscript turns into a
`MessageError`: an absent field, or a hashable value (a string or any
non-container) that is not a registered tag. -/
def typeFieldHashableUnregistered (types : List (String × MessageKind)) :
    Option Json → Bool
  | some (.str s) => (List.lookup s types).isNone
  | some (.arr _) => false
  | some (.obj _) => false
  | _ => true

/-- C1. The round-trip law fails because of a defect in `Message.encode`:
for the registered kind "error" with the normalized payload "k", encoding
raises `TypeError` (the UTF-8 bytes are concatenated with a str
terminator), so no wire bytes are ever produced; decoding the byte
sequence that encode was evidently meant to produce (terminator already
excluded) does return the original message, so the decode half of the
round trip is intact. -/
theorem c1_encode_raises_before_roundtrip :
    Message.encode errorKind (Json.str "k") = .error PyExc.typeError ∧
    Message.decode errorKFrame = .ok ⟨"error", Json.str "k"⟩ :=
  ⟨rfl, rfl⟩

/-- C2 counterexample. A frame whose type "chat" is registered in the
server's handler table but is not a registered message kind is dispatched
to its handler: the server's inbound path consults only the handler
table, so the handler is reached even though no kind was matched and no
validator ran. -/
theorem c2_unvalidated_dispatch_cex :
    processMessage [("chat", okHandler)]
        (Json.obj (JsonFields.cons "type" (Json.str "chat")
          (JsonFields.cons "entity" (Json.str "x") JsonFields.nil))) = .dispatched ∧
    List.lookup "chat" MessageMeta.types = none :=
  ⟨rfl, rfl⟩

/-- C2 amended. The server's inbound path dispatches a payload to a
handler exactly when the frame decodes to a JSON object carrying a `type`
field whose value is a string present in the server's handler table and
an `entity` field; no lookup against the registered message kinds and no
validator is involved before dispatch. -/
theorem c2_dispatch_iff_handler_table (handlers : Handlers) (m : Json) :
    reachesHandler (processMessage handlers m) = true ↔
      ∃ fs s h, m = Json.obj fs ∧ pyDictGet fs "type" = some (Json.str s) ∧
        (pyDictGet fs "entity").isSome ∧ List.lookup s handlers = some h := by
  cases m with
  | obj fields =>
    cases htv : pyDictGet fields "type" with
    | none => simp [processMessage, htv, reachesHandler]
    | some tv =>
      cases hent : pyDictGet fields "entity" with
      | none => simp [processMessage, htv, hent, reachesHandler]
      | some ent =>
        cases tv with
        | str s =>
          cases hl : List.lookup s handlers with
          | none => simp [processMessage, htv, hent, hl, reachesHandler]
          | some h =>
            cases hh : h ent with
            | ok u => simp [processMessage, htv, hent, hl, hh, reachesHandler]
            | error e => simp [processMessage, htv, hent, hl, hh, reachesHandler]
        | null => simp [processMessage, htv, hent, reachesHandler]
        | bool b => simp [processMessage, htv, hent, reachesHandler]
        | num n => simp [processMessage, htv, hent, reachesHandler]
        | arr xs => simp [processMessage, htv, hent, reachesHandler]
        | obj fs2 => simp [processMessage, htv, hent, reachesHandler]
  | null => simp [processMessage, reachesHandler]
  | bool b => simp [processMessage, reachesHandler]
  | num n => simp [processMessage, reachesHandler]
  | str s => simp [processMessage, reachesHandler]
  | arr xs => simp [processMessage, reachesHandler]

/-- When no terminator byte occurs in the buffered bytes nor in any
pending chunk, the read loop extracts no frame and simply runs out of
input. -/
theorem readJsonLoop_no_terminator (handlers : Handlers) :
    ∀ (chunks : List (List Nat)) (buffer : List Nat),
      (0 : Nat) ∉ buffer ++ chunks.flatten →
      readJsonLoop handlers buffer chunks = ([], .clientClosed) := by
  intro chunks
  induction chunks with
  | nil => intro buffer _; rfl
  | cons c rest ih =>
    intro buffer h
    have h' : ¬ ((0 : Nat) ∈ buffer ∨ (0 : Nat) ∈ c ∨ (0 : Nat) ∈ rest.flatten) := by
      simpa [List.mem_append, or_assoc] using h
    by_cases hc : c.isEmpty
    · simp [readJsonLoop, hc]
    · have hfind : pyFindByte 0 (buffer ++ c) = none := by
        rw [pyFindByte_eq_none_iff]
        intro hmem
        rcases List.mem_append.mp hmem with hm | hm
        · exact h' (Or.inl hm)
        · exact h' (Or.inr (Or.inl hm))
      have hrec : readJsonLoop handlers (buffer ++ c) rest = ([], .clientClosed) := by
        apply ih
        intro hmem
        rcases List.mem_append.mp hmem with hm | hm
        · rcases List.mem_append.mp hm with hm2 | hm2
          · exact h' (Or.inl hm2)
          · exact h' (Or.inr (Or.inl hm2))
        · exact h' (Or.inr (Or.inr hm))
      simp [readJsonLoop, hc, hfind, hrec]

/-- C3. Chunk-boundary independence on terminator-free input: a byte
string containing no 0x00 byte yields the same sequence of extracted
frames whether it is delivered to the read loop as one chunk or split in
two at any boundary (in both cases no frame is extracted, as no frame is
complete yet). -/
theorem c3_chunk_boundary_independence (handlers : Handlers) (b1 b2 : List Nat)
    (h : (0 : Nat) ∉ b1 ++ b2) :
    (readJsonLoop handlers [] [b1, b2]).1 = (readJsonLoop handlers [] [b1 ++ b2]).1 := by
  rw [readJsonLoop_no_terminator handlers [b1, b2] [] (by simpa using h),
    readJsonLoop_no_terminator handlers [b1 ++ b2] [] (by simpa using h)]

/-- C3 witness: the theorem applied to the terminator-free bytes "1" and
"2" delivered to a server with an empty dispatch table. -/
theorem c3_chunk_boundary_witness :
    (0 : Nat) ∉ ([49] ++ [50] : List Nat) ∧
    (readJsonLoop [] [] [[49], [50]]).1 = (readJsonLoop [] [] [[49] ++ [50]]).1 :=
  ⟨by decide, c3_chunk_boundary_independence [] [49] [50] (by decide)⟩

/-- C4. On the single chunk "1\x002\x00" the read loop extracts only the
first slice and stops at end of input (one `find` per received chunk, no
inner scan), not the two slices the claim requires; because the buffer is
trimmed to `buffer[message_end:]` the terminator stays buffered, so after
a further chunk "3\x00" the loop extracts the empty slice and terminates
on a JSON error. The repository's own `Message.decode_from_buffer`
extracts both slices from the same bytes, matching the claim. -/
theorem c4_single_extraction_kept_terminator :
    readJsonLoop [] [] [[49, 0, 50, 0]] = ([[49]], .clientClosed) ∧
    readJsonLoop [] [] [[49, 0, 50, 0], [51, 0]] = ([[49], []], .jsonError) ∧
    Message.decode_from_buffer [49, 0, 50, 0] = [[49], [50]] ∧
    ([[49]] : List (List Nat)) ≠ [[49], [50]] :=
  ⟨rfl, rfl, rfl, by decide⟩

/-- C5 counterexample. Decoding the frame of type "error" whose entity is
the empty string: the NotEmpty validator rejects the entity, and decode
fails with the validator's own `Invalid` error, which propagates — not
with `MessageError` as the claim states. -/
theorem c5_validator_rejection_not_message_error :
    Message.decode errorEmptyFrame = .error (.invalid "Please enter a value") ∧
    decodeRaisedMessageError (Message.decode errorEmptyFrame) = false :=
  ⟨rfl, rfl⟩

/-- C5 amended. For any external UTF-8 decoder, JSON reader and registry:
decode raises `MessageError` exactly when the bytes fail UTF-8 decoding,
the text fails JSON parsing, the top-level value is not an object, or the
`type` field is absent or a hashable value not registered as a tag (an
unhashable `type` value instead raises an uncaught `TypeError`); a
validator rejection propagates the validator's own error, not
`MessageError`; in every other case decode returns a Message of the
looked-up kind carrying the validated entity. -/
theorem c5_decode_error_classification (u8 : List Nat → Option (List Char))
    (jl : List Char → Option Json) (types : List (String × MessageKind))
    (raw : List Nat) :
    (decodeRaisedMessageError (decodeWith u8 jl types raw) = true ↔
      u8 raw = none ∨
      ∃ cs, u8 raw = some cs ∧
        (jl cs = none ∨
         ∃ j, jl cs = some j ∧
           (jsonIsObj j = false ∨
            ∃ fs, j = Json.obj fs ∧
              typeFieldHashableUnregistered types (pyDictGet fs "type") = true))) ∧
    (decodeRaisedInvalid (decodeWith u8 jl types raw) = true ↔
      ∃ cs fs kind e, u8 raw = some cs ∧ jl cs = some (Json.obj fs) ∧
        lookupMessageType types (pyDictGet fs "type") = .ok kind ∧
        kind.toPython ((pyDictGet fs "entity").getD Json.null) = .error e) ∧
    ((∃ m, decodeWith u8 jl types raw = .ok m) ↔
      ∃ cs fs kind v, u8 raw = some cs ∧ jl cs = some (Json.obj fs) ∧
        lookupMessageType types (pyDictGet fs "type") = .ok kind ∧
        kind.toPython ((pyDictGet fs "entity").getD Json.null) = .ok v ∧
        decodeWith u8 jl types raw = .ok ⟨kind.tag, v⟩) := by
  cases hu : u8 raw with
  | none =>
    refine ⟨?_, ?_, ?_⟩ <;>
      simp [decodeWith, hu, decodeRaisedMessageError, decodeRaisedInvalid]
  | some cs =>
    cases hj : jl cs with
    | none =>
      refine ⟨?_, ?_, ?_⟩ <;>
        simp [decodeWith, hu, hj, decodeRaisedMessageError, decodeRaisedInvalid]
    | some j =>
      cases j with
      | obj fields =>
        cases htv : pyDictGet fields "type" with
        | none =>
          refine ⟨?_, ?_, ?_⟩ <;>
            simp [decodeWith, hu, hj, htv, lookupMessageType, jsonIsObj,
              typeFieldHashableUnregistered, decodeRaisedMessageError,
              decodeRaisedInvalid]
        | some tv =>
          cases tv with
          | str s =>
            cases hl : List.lookup s types with
            | none =>
              refine ⟨?_, ?_, ?_⟩ <;>
                simp [decodeWith, hu, hj, htv, hl, lookupMessageType, jsonIsObj,
                  typeFieldHashableUnregistered, decodeRaisedMessageError,
                  decodeRaisedInvalid]
            | some kind =>
              cases hk : kind.toPython ((pyDictGet fields "entity").getD Json.null) with
              | error e =>
                refine ⟨?_, ?_, ?_⟩ <;>
                  simp [decodeWith, hu, hj, htv, hl, hk, lookupMessageType, jsonIsObj,
                    typeFieldHashableUnregistered, decodeRaisedMessageError,
                    decodeRaisedInvalid]
              | ok v =>
                refine ⟨?_, ?_, ?_⟩ <;>
                  simp [decodeWith, hu, hj, htv, hl, hk, lookupMessageType, jsonIsObj,
                    typeFieldHashableUnregistered, decodeRaisedMessageError,
                    decodeRaisedInvalid]
          | null =>
            refine ⟨?_, ?_, ?_⟩ <;>
              simp [decodeWith, hu, hj, htv, lookupMessageType, jsonIsObj,
                typeFieldHashableUnregistered, decodeRaisedMessageError,
                decodeRaisedInvalid]
          | bool b =>
            refine ⟨?_, ?_, ?_⟩ <;>
              simp [decodeWith, hu, hj, htv, lookupMessageType, jsonIsObj,
                typeFieldHashableUnregistered, decodeRaisedMessageError,
                decodeRaisedInvalid]
          | num n =>
            refine ⟨?_, ?_, ?_⟩ <;>
              simp [decodeWith, hu, hj, htv, lookupMessageType, jsonIsObj,
                typeFieldHashableUnregistered, decodeRaisedMessageError,
                decodeRaisedInvalid]
          | arr xs =>
            refine ⟨?_, ?_, ?_⟩ <;>
              simp [decodeWith, hu, hj, htv, lookupMessageType, jsonIsObj,
                typeFieldHashableUnregistered, decodeRaisedMessageError,
                decodeRaisedInvalid]
          | obj fs2 =>
            refine ⟨?_, ?_, ?_⟩ <;>
              simp [decodeWith, hu, hj, htv, lookupMessageType, jsonIsObj,
                typeFieldHashableUnregistered, decodeRaisedMessageError,
                decodeRaisedInvalid]
      | null =>
        refine ⟨?_, ?_, ?_⟩ <;>
          simp [decodeWith, hu, hj, jsonIsObj, decodeRaisedMessageError,
            decodeRaisedInvalid]
      | bool b =>
        refine ⟨?_, ?_, ?_⟩ <;>
          simp [decodeWith, hu, hj, jsonIsObj, decodeRaisedMessageError,
            decodeRaisedInvalid]
      | num n =>
        refine ⟨?_, ?_, ?_⟩ <;>
          simp [decodeWith, hu, hj, jsonIsObj, decodeRaisedMessageError,
            decodeRaisedInvalid]
      | str s =>
        refine ⟨?_, ?_, ?_⟩ <;>
          simp [decodeWith, hu, hj, jsonIsObj, decodeRaisedMessageError,
            decodeRaisedInvalid]
      | arr xs =>
        refine ⟨?_, ?_, ?_⟩ <;>
          simp [decodeWith, hu, hj, jsonIsObj, decodeRaisedMessageError,
            decodeRaisedInvalid]

/-- C6. A well-formed frame whose type "unknown" has no registered
handler does not produce a logged warning and a surviving connection:
formatting the warning accesses `type` as an attribute of the dict, which
raises `AttributeError`; the exception escapes `_process_message`, the
read loop stops, and the subsequent valid frame on the connection is
never extracted or processed. -/
theorem c6_unhandled_type_warning_crashes :
    processMessage [] (Json.obj (JsonFields.cons "type" (Json.str "unknown")
        (JsonFields.cons "entity" (Json.obj JsonFields.nil) JsonFields.nil))) =
      .raised .attributeError ∧
    readJsonLoop [] [] [unknownTypeFrame ++ [0], xFrame ++ [0]] =
      ([unknownTypeFrame], .exn .attributeError) :=
  ⟨rfl, rfl⟩

/-- C7 counterexample. With a handler for "boom" that raises, the
exception is not caught at the dispatch boundary: the read loop stops
with the handler's exception and the subsequent valid frame on the same
connection is never extracted or processed. -/
theorem c7_handler_exception_cex :
    readJsonLoop [("boom", boomHandler)] [] [boomFrame ++ [0], xFrame ++ [0]] =
      ([boomFrame], .exn (.handlerExc "boom")) :=
  rfl

/-- C7 amended. A handler invocation that raises is not caught anywhere
in the dispatch path: whenever the frame's object carries a string `type`
registered in the handler table and an `entity` on which the handler
raises, `_process_message` propagates the handler's exception (which
aborts the connection's read loop). -/
theorem c7_handler_exception_uncaught (handlers : Handlers) (fs : JsonFields)
    (s : String) (h : Handler) (ent : Json) (e : String)
    (htv : pyDictGet fs "type" = some (Json.str s))
    (hent : pyDictGet fs "entity" = some ent)
    (hl : List.lookup s handlers = some h)
    (hh : h ent = .error e) :
    processMessage handlers (Json.obj fs) = .raised (.handlerExc e) := by
  simp [processMessage, htv, hent, hl, hh]

/-- C7 witness: the amended theorem applied to the "boom" frame and the
raising handler. -/
theorem c7_handler_exception_uncaught_witness :
    processMessage [("boom", boomHandler)]
        (Json.obj (JsonFields.cons "type" (Json.str "boom")
          (JsonFields.cons "entity" (Json.num 1) JsonFields.nil))) =
      .raised (.handlerExc "boom") :=
  c7_handler_exception_uncaught [("boom", boomHandler)]
    (JsonFields.cons "type" (Json.str "boom")
      (JsonFields.cons "entity" (Json.num 1) JsonFields.nil))
    "boom" boomHandler (Json.num 1) "boom" rfl rfl rfl rfl

/-- C8. A frame whose object lacks the `type` field is not rejected with
a logged error: the guard written with `and` evaluates the subscript of
the missing key and raises an uncaught `KeyError`, which aborts the read
loop, so the subsequent valid frame (whose type "x" has a handler
registered) is never processed. -/
theorem c8_missing_type_key_error :
    processMessage [("x", okHandler)]
        (Json.obj (JsonFields.cons "entity" (Json.obj JsonFields.nil) JsonFields.nil)) =
      .raised .keyError ∧
    readJsonLoop [("x", okHandler)] [] [noTypeFrame ++ [0], xFrame ++ [0]] =
      ([noTypeFrame], .exn .keyError) :=
  ⟨rfl, rfl⟩

/-- C9. The preamble gate runs once per connection before any frame is
read: the connection terminates as incomplete exactly when fewer than 4
preamble bytes were obtained, as bad magic exactly when 4 bytes were
obtained but the first 3 differ from the magic constant, as a version
mismatch exactly when the magic matches but the 4th byte is not the
protocol version, and control passes to the frame-reading loop (whose
extracted frames and stop reason the connection result then carries)
exactly when all checks pass. -/
theorem c9_preamble_gate (handlers : Handlers) (p : List Nat)
    (chunks : List (List Nat)) :
    (ZordzmanHandler.handler handlers p chunks = .preambleFail .incompletePreamble ↔
      p.length < 4) ∧
    (ZordzmanHandler.handler handlers p chunks = .preambleFail .badMagic ↔
      4 ≤ p.length ∧ p.take 3 ≠ MAGIC_NUMBER) ∧
    (ZordzmanHandler.handler handlers p chunks = .preambleFail .versionMismatch ↔
      4 ≤ p.length ∧ p.take 3 = MAGIC_NUMBER ∧ p.getD 3 0 ≠ PROTOCOL_VERSION) ∧
    (ZordzmanHandler.handler handlers p chunks =
        .opened (readJsonLoop handlers [] chunks).1 (readJsonLoop handlers [] chunks).2 ↔
      4 ≤ p.length ∧ p.take 3 = MAGIC_NUMBER ∧ p.getD 3 0 = PROTOCOL_VERSION) := by
  unfold ZordzmanHandler.handler
  by_cases h1 : p.length < 4
  · have h1' : ¬ 4 ≤ p.length := by omega
    simp [h1, h1']
  · have h1' : 4 ≤ p.length := by omega
    by_cases h2 : p.take 3 = MAGIC_NUMBER
    · by_cases h3 : p.getD 3 0 = PROTOCOL_VERSION
      · have h3' : p[3]?.getD 0 = PROTOCOL_VERSION := by simpa [List.getD] using h3
        simp [h1, h1', h2, h3, h3']
      · have h3' : ¬ p[3]?.getD 0 = PROTOCOL_VERSION := by simpa [List.getD] using h3
        simp [h1, h1', h2, h3, h3']
    · simp [h1, h1', h2]

/-- C10. For every message kind and entity, `Message.encode` raises
`TypeError` — the UTF-8 bytes of the serialized envelope are concatenated
with a str terminator, and bytes plus str is a `TypeError` in Python — so
it never returns wire bytes; the server's own outbound `send` builds its
frame with a bytes terminator and does produce a byte sequence ending in
the 0x00 terminator. -/
theorem c10_encode_type_error_send_bytes (kind : MessageKind) (entity : Json)
    (type_ : String) (m : Json) :
    Message.encode kind entity = .error PyExc.typeError ∧
    (ZordzmanHandler.send type_ m).getLast? = some 0 := by
  refine ⟨rfl, ?_⟩
  simp [ZordzmanHandler.send]

/-- C2 witness: the amended characterization applied to the concrete
"chat" frame and handler table. -/
theorem c2_dispatch_iff_handler_table_witness :
    reachesHandler (processMessage [("chat", okHandler)]
        (Json.obj (JsonFields.cons "type" (Json.str "chat")
          (JsonFields.cons "entity" (Json.str "x") JsonFields.nil)))) = true :=
  (c2_dispatch_iff_handler_table [("chat", okHandler)]
      (Json.obj (JsonFields.cons "type" (Json.str "chat")
        (JsonFields.cons "entity" (Json.str "x") JsonFields.nil)))).mpr
    ⟨JsonFields.cons "type" (Json.str "chat")
        (JsonFields.cons "entity" (Json.str "x") JsonFields.nil),
      "chat", okHandler, rfl, rfl, rfl, rfl⟩

/-- C5 witness: the classification applied to the single byte 0xFF, which
is not valid UTF-8, so decode raises MessageError. -/
theorem c5_decode_error_classification_witness :
    decodeRaisedMessageError
      (decodeWith pyUtf8DecodeChars pyJsonLoads MessageMeta.types [255]) = true :=
  (c5_decode_error_classification pyUtf8DecodeChars pyJsonLoads
      MessageMeta.types [255]).1.mpr (Or.inl rfl)

/-- C9 witness: the gate applied to the correct preamble followed by an
immediately closed connection. -/
theorem c9_preamble_gate_witness :
    ZordzmanHandler.handler [] [0xCA, 0xC3, 0x55, 0] [] = .opened [] .clientClosed := by
  have h := (c9_preamble_gate [] [0xCA, 0xC3, 0x55, 0] []).2.2.2
  have h2 := h.mpr ⟨by decide, by decide, by decide⟩
  simpa using h2

/-- C10 witness: encode on the registered "error" kind with entity 1
raises TypeError. -/
theorem c10_encode_type_error_witness :
    Message.encode errorKind (Json.num 1) = .error PyExc.typeError :=
  (c10_encode_type_error_send_bytes errorKind (Json.num 1) "error" (Json.num 1)).1
